import Mathlib

/-!
Shallow embedding of the myOCT Thorlabs hardware-glue layer
(`ThorlabsImager/ThorlabsImagerPython`): the probe `.ini` parser, the probe
property application, the per-axis stage facade, the persistent stage server,
the spectral-file splitter, and the scanner/scan-volume and close-all
sequencing.  Vendor SDK calls (`pyspectralradar`, `xa_sdk`) are modelled by an
environment record of outcomes (positions reported, which operations raise),
and the observable SDK interaction is recorded as a trace of actions.
Positions in millimetres are rationals.
-/

set_option autoImplicit false

namespace MyOCT

/-- Stage axis identifier.  The Python code keys its handle tables by the
strings "x" / "y" / "z", the keys of `_stage_serial_numbers`. -/
inductive Axis
  | x
  | y
  | z
deriving DecidableEq

/-- The axis key as the Python modules spell it. -/
def Axis.toStr : Axis → String
  | .x => "x"
  | .y => "y"
  | .z => "z"

/-- `_stage_serial_numbers`: the static axis → serial-number table shared by
`thorlabs_imager_oct.py`, `thorlabs_imager_stage.py` and
`thorlabs_stage_server.py`. -/
def stageSerialNumbers : List (String × String) :=
  [("x", "26006464"), ("y", "26006471"), ("z", "26006482")]

/-- `axis in _stage_serial_numbers`: a lowered axis string is valid exactly
when it is one of the table's keys. -/
def parseAxis (s : String) : Option Axis :=
  if s = "x" then some Axis.x
  else if s = "y" then some Axis.y
  else if s = "z" then some Axis.z
  else none

/-- The Python exception classes the embedded functions raise. -/
inductive PyErr
  | runtimeError (msg : String)
  | valueError (msg : String)
  | fileNotFoundError (msg : String)
  | fileExistsError (msg : String)
deriving DecidableEq

instance exceptDecEq {ε α : Type} [DecidableEq ε] [DecidableEq α] :
    DecidableEq (Except ε α) := fun x y =>
  match x, y with
  | .ok a, .ok b =>
      if h : a = b then isTrue (by rw [h])
      else isFalse (by intro he; cases he; exact h rfl)
  | .error a, .error b =>
      if h : a = b then isTrue (by rw [h])
      else isFalse (by intro he; cases he; exact h rfl)
  | .ok _, .error _ => isFalse (by intro h; cases h)
  | .error _, .ok _ => isFalse (by intro h; cases h)

/-- Value stored in the probe-config dictionary by `_read_probe_ini`:
scalar float, scalar int, bracketed numeric list, or raw string. -/
inductive IniValue
  | floatV (q : ℚ)
  | intV (n : Int)
  | listV (qs : List ℚ)
  | strV (v : String)
deriving DecidableEq

/-! ### Python string primitives used by `_read_probe_ini` -/

/-- ASCII whitespace stripped by Python `str.strip()`. -/
def isPySpace (c : Char) : Bool :=
  c = ' ' ∨ c.toNat = 9 ∨ c.toNat = 10 ∨ c.toNat = 11 ∨ c.toNat = 12 ∨ c.toNat = 13

/-- Python `str.strip()` on a character list. -/
def pyStripL (cs : List Char) : List Char :=
  ((cs.dropWhile isPySpace).reverse.dropWhile isPySpace).reverse

/-- The single-quote character (codepoint 39). -/
def singleQuote : Char := Char.ofNat 39

/-- Interpret a run of decimal digit characters as a natural number. -/
def digitsToNat (cs : List Char) : Nat :=
  cs.foldl (fun a c => 10 * a + (c.toNat - 48)) 0

/-- Python `int(value)` on an already-stripped string: an optional sign
followed by at least one decimal digit (the source never feeds it
underscore-separated literals). -/
def pyParseInt (s : List Char) : Option Int :=
  match s with
  | [] => none
  | c :: r =>
    if c = '-' then
      (if r ≠ [] ∧ r.all Char.isDigit then some (-(digitsToNat r : Int)) else none)
    else if c = '+' then
      (if r ≠ [] ∧ r.all Char.isDigit then some ((digitsToNat r : Int)) else none)
    else
      (if (c :: r).all Char.isDigit then some ((digitsToNat (c :: r) : Int)) else none)

/-- Python `float(value)` on an already-stripped string, over the decimal
grammar the probe files use: optional sign, digits with an optional point
(at least one digit overall), and an optional `e`/`E` exponent. -/
def pyParseFloat (s : List Char) : Option ℚ :=
  let signRest : ℚ × List Char :=
    match s with
    | '-' :: r => (-1, r)
    | '+' :: r => (1, r)
    | r => (1, r)
  let body := signRest.2
  let intPart := body.takeWhile Char.isDigit
  let afterInt := body.dropWhile Char.isDigit
  let fracRest : List Char × List Char :=
    match afterInt with
    | '.' :: r => (r.takeWhile Char.isDigit, r.dropWhile Char.isDigit)
    | r => ([], r)
  let fracPart := fracRest.1
  if intPart = [] ∧ fracPart = [] then none
  else
    let mant : ℚ :=
      signRest.1 * ((digitsToNat intPart : ℚ) +
        (digitsToNat fracPart : ℚ) / (10 : ℚ) ^ fracPart.length)
    match fracRest.2 with
    | [] => some mant
    | e :: r =>
      if e = 'e' ∨ e = 'E' then
        let expRest : Bool × List Char :=
          match r with
          | '-' :: r2 => (true, r2)
          | '+' :: r2 => (false, r2)
          | r2 => (false, r2)
        if expRest.2 ≠ [] ∧ expRest.2.all Char.isDigit then
          some (if expRest.1 then mant / (10 : ℚ) ^ digitsToNat expRest.2
                else mant * (10 : ℚ) ^ digitsToNat expRest.2)
        else none
      else none

/-! ### `_read_probe_ini` (thorlabs_imager_oct.py) -/

/-- `value[1:-1]` when the value starts and ends with a single quote. -/
def stripQuotes (v : List Char) : List Char :=
  if v.head? = some singleQuote ∧ v.getLast? = some singleQuote then v.tail.dropLast
  else v

/-- `value.strip(brackets)`: drop leading and trailing `[` / `]` characters. -/
def isBracketChar (c : Char) : Bool := c = '[' ∨ c = ']'

def stripBrackets (cs : List Char) : List Char :=
  ((cs.dropWhile isBracketChar).reverse.dropWhile isBracketChar).reverse

/-- Python `str.split(sep)` for a one-character separator (as in
`list_str.split(",")`): always returns at least one piece. -/
def splitOnChar (sep : Char) : List Char → List (List Char)
  | [] => [[]]
  | c :: r =>
    let rest := splitOnChar sep r
    if c = sep then [] :: rest
    else
      match rest with
      | g :: gs => (c :: g) :: gs
      | [] => [[c]]

/-- `[float(x.strip()) for x in list_str.split(",")]`; `none` when some
component raises `ValueError`. -/
def parseFloatList (cs : List Char) : Option (List ℚ) :=
  (splitOnChar ',' cs).mapM (fun x => pyParseFloat (pyStripL x))

/-- The `except ValueError:` arm of `_read_probe_ini`'s coercion: bracketed
values become float lists (a component that fails to parse re-raises
`ValueError`, aborting the parse), anything else stays a string. -/
def coerceFallback (v : List Char) : Except PyErr IniValue :=
  if v.contains '[' ∧ v.contains ']' then
    match parseFloatList (stripBrackets v) with
    | some qs => Except.ok (IniValue.listV qs)
    | none => Except.error (PyErr.valueError ("could not convert string to float"))
  else Except.ok (IniValue.strV (String.mk v))

/-- The try-arm coercion of `_read_probe_ini`, exactly as the source orders it
(after quote stripping): if the text contains a point or an exponent letter try
`float` (failure falls to the `except` arm without trying `int`), otherwise try
`int`; the `except` arm handles bracketed lists and strings. -/
def coerceCore (v : List Char) : Except PyErr IniValue :=
  if v.contains '.' ∨ v.contains 'e' ∨ v.contains 'E' then
    match pyParseFloat v with
    | some q => Except.ok (IniValue.floatV q)
    | none => coerceFallback v
  else
    match pyParseInt v with
    | some n => Except.ok (IniValue.intV n)
    | none => coerceFallback v

/-- Full value coercion of `_read_probe_ini`: strip quotes, then coerce. -/
def coerceValue (value : List Char) : Except PyErr IniValue :=
  coerceCore (stripQuotes value)

/-- The coercion as claim C4 words it: float if the text contains `.`/`e`/`E`
and parses as a float, ELSE int if it parses as an int, else the bracket/string
fallback.  Stated separately so that agreement with the source's `coerceCore`
is a theorem, not a definition. -/
def coerceCoreSpec (v : List Char) : Except PyErr IniValue :=
  match (if v.contains '.' ∨ v.contains 'e' ∨ v.contains 'E'
         then pyParseFloat v else none) with
  | some q => Except.ok (IniValue.floatV q)
  | none =>
    match pyParseInt v with
    | some n => Except.ok (IniValue.intV n)
    | none => coerceFallback v

def coerceValueSpec (value : List Char) : Except PyErr IniValue :=
  coerceCoreSpec (stripQuotes value)

/-- Python-dict insertion: replace the value in place when the key exists,
append otherwise. -/
def dictInsert (cfg : List (String × IniValue)) (k : String) (v : IniValue) :
    List (String × IniValue) :=
  if cfg.any (fun p => p.1 = k) then cfg.map (fun p => if p.1 = k then (k, v) else p)
  else cfg ++ [(k, v)]

/-- One iteration of `_read_probe_ini`'s line loop: strip, skip empty and
`#` comment lines, and for lines containing `=` split once, strip both sides
and coerce the value. -/
def parseIniLine (cfg : List (String × IniValue)) (rawLine : String) :
    Except PyErr (List (String × IniValue)) :=
  let line := pyStripL rawLine.data
  if line = [] ∨ line.head? = some '#' then Except.ok cfg
  else if line.contains '=' then
    let key := pyStripL (line.takeWhile (fun c => c ≠ '='))
    let value := pyStripL ((line.dropWhile (fun c => c ≠ '=')).tail)
    match coerceValue value with
    | Except.ok v => Except.ok (dictInsert cfg (String.mk key) v)
    | Except.error e => Except.error e
  else Except.ok cfg

/-- `_read_probe_ini` over the file's lines (the outer handler re-wraps any
exception as `ValueError`; the only error the loop produces already is one). -/
def readProbeIni (lines : List String) : Except PyErr (List (String × IniValue)) :=
  lines.foldlM parseIniLine []

/-! ### Claim C4: coercion order of the `.ini` parser -/

theorem mem_of_contains {α : Type} [BEq α] [LawfulBEq α] {v : List α} {c : α}
    (h : v.contains c = true) : c ∈ v :=
  List.elem_iff.mp h

theorem not_mem_of_contains_eq_false {α : Type} [BEq α] [LawfulBEq α] {v : List α} {c : α}
    (h : v.contains c = false) : ¬ c ∈ v := by
  intro hm
  rw [show v.contains c = List.elem c v from rfl, List.elem_iff.mpr hm] at h
  cases h

/-- A string holding a non-digit character other than a sign never parses as a
Python int. -/
theorem pyParseInt_eq_none_of_mem (v : List Char) (c : Char) (hc : c ∈ v)
    (hd : c.isDigit = false) (hm : c ≠ '-') (hp : c ≠ '+') :
    pyParseInt v = none := by
  cases v with
  | nil => cases hc
  | cons a r =>
    simp only [pyParseInt]
    split_ifs with h1 h2 h3 h4 h5
    · exfalso
      rcases List.mem_cons.mp hc with h | h
      · exact hm (h.trans h1)
      · have hx := List.all_eq_true.mp h2.2 c h
        rw [hd] at hx
        exact Bool.false_ne_true hx
    · rfl
    · exfalso
      rcases List.mem_cons.mp hc with h | h
      · exact hp (h.trans h3)
      · have hx := List.all_eq_true.mp h4.2 c h
        rw [hd] at hx
        exact Bool.false_ne_true hx
    · rfl
    · exfalso
      have hx := List.all_eq_true.mp h5 c hc
      rw [hd] at hx
      exact Bool.false_ne_true hx
    · rfl

/-- The source's coercion order (float attempt swallowing the int attempt when
the text mentions `.`/`e`/`E`) agrees with the claim's order (float, else int,
else fallback): a text containing `.`/`e`/`E` can never parse as an int. -/
theorem coerceCore_eq_coerceCoreSpec (v : List Char) :
    coerceCore v = coerceCoreSpec v := by
  unfold coerceCore coerceCoreSpec
  by_cases h : (v.contains '.' = true ∨ v.contains 'e' = true ∨ v.contains 'E' = true)
  · rw [if_pos h, if_pos h]
    cases hf : pyParseFloat v with
    | some q => rfl
    | none =>
      have hint : pyParseInt v = none := by
        rcases h with h | h | h
        · exact pyParseInt_eq_none_of_mem v '.' (mem_of_contains h) (by decide) (by decide) (by decide)
        · exact pyParseInt_eq_none_of_mem v 'e' (mem_of_contains h) (by decide) (by decide) (by decide)
        · exact pyParseInt_eq_none_of_mem v 'E' (mem_of_contains h) (by decide) (by decide) (by decide)
      rw [hint]
  · rw [if_neg h, if_neg h]

/-- C4 (counterexample): the claim says every non-comment, non-empty line
containing `=` yields one map entry, with bracketed values coerced to float
lists.  The line "K=[q]" is non-empty, is not a comment and contains `=`, yet
`_read_probe_ini` produces no entry at all: the bracketed value's component
fails `float()` and the whole parse aborts with `ValueError`. -/
theorem probe_ini_bracket_abort_cex :
    (pyStripL ("K=[q]").data ≠ [] ∧
     (pyStripL ("K=[q]").data).head? ≠ some '#' ∧
     (pyStripL ("K=[q]").data).contains '=' = true) ∧
    readProbeIni [("K=[q]")] =
      Except.error (PyErr.valueError ("could not convert string to float")) := by
  exact ⟨⟨by decide, by decide, by decide⟩, rfl⟩

/-- C4 (amended): the probe .ini parser strips surrounding single quotes from
the value, skips lines that are empty or start with `#`, and maps every other
line containing `=` whose value coerces successfully to one key/value entry;
the coercion follows the claimed order — float if the text contains `.` or
`e`/`E` and parses as a float, else int if it parses as an int, else a list of
floats if the text contains `[` and `]` and every comma-separated component
parses as a float, else the raw string — except that a bracketed value with a
component that does not parse as a float aborts the whole parse with
`ValueError` instead of falling back to a string. -/
theorem probe_ini_line_coercion :
    (∀ value, coerceValue value = coerceValueSpec value) ∧
    (∀ cfg rawLine,
      (pyStripL rawLine.data = [] ∨ (pyStripL rawLine.data).head? = some '#') →
      parseIniLine cfg rawLine = Except.ok cfg) ∧
    (∀ cfg rawLine v,
      ¬ (pyStripL rawLine.data = [] ∨ (pyStripL rawLine.data).head? = some '#') →
      (pyStripL rawLine.data).contains '=' = true →
      coerceValue (pyStripL (((pyStripL rawLine.data).dropWhile (fun c => c ≠ '=')).tail)) =
        Except.ok v →
      parseIniLine cfg rawLine =
        Except.ok (dictInsert cfg
          (String.mk (pyStripL ((pyStripL rawLine.data).takeWhile (fun c => c ≠ '='))))
          v)) := by
  refine ⟨fun value => ?_, fun cfg rawLine h => ?_, fun cfg rawLine v hno heq hv => ?_⟩
  · unfold coerceValue coerceValueSpec
    exact coerceCore_eq_coerceCoreSpec (stripQuotes value)
  · simp only [parseIniLine]
    rw [if_pos h]
  · simp only [parseIniLine]
    rw [if_neg hno, if_pos heq, hv]

/-- C4 witness: the amended claim evaluated on a comment line and on a
concrete float-valued line. -/
theorem probe_ini_line_coercion_witness :
    parseIniLine [] ("# comment") = Except.ok [] ∧
    parseIniLine [] ("Oversampling = 42") =
      Except.ok (dictInsert []
        (String.mk (pyStripL ((pyStripL ("Oversampling = 42").data).takeWhile (fun c => c ≠ '='))))
        (IniValue.intV 42)) := by
  constructor
  · exact probe_ini_line_coercion.2.1 [] ("# comment") (Or.inr (by decide))
  · exact probe_ini_line_coercion.2.2 [] ("Oversampling = 42") (IniValue.intV 42)
      (by decide) (by decide) (by decide)

/-! ### Stage hardware model

Vendor `KST201` devices are abstracted by Nat handles handed out by the
environment, observable SDK interaction by a trace of `Action`s, and
positions by rationals in millimetres (unit conversion between physical mm
and encoder counts lives inside the vendor SDK and is modelled as the
identity on the mm value it round-trips). -/

/-- One observable SDK side effect. -/
inductive Action
  | devInit (a : Axis) (d : Nat)
  | devDisconnect (d : Nat)
  | devClose (d : Nat)
  | setVelocityParams (d : Nat)
  | readPosition (d : Nat)
  | moveAbsoluteCmd (d : Nat) (target : ℚ)
  | moveRelativeCmd (d : Nat) (delta : ℚ)
  | scannerDeviceStop
  | gcCollect
  | octSystemCreate
  | probeCreate
  | processingCreate
  | setterCall (iniKey : String) (setter : String) (value : ℚ)
  | acqStart
  | acqStop
deriving DecidableEq

/-- Commands that make the stage hardware move. -/
def Action.isMoveCmd : Action → Bool
  | .moveAbsoluteCmd _ _ => true
  | .moveRelativeCmd _ _ => true
  | _ => false

/-- `_stage_handles`: the per-axis device handle dictionary. -/
structure StageHandles where
  hx : Option Nat
  hy : Option Nat
  hz : Option Nat
deriving DecidableEq

def StageHandles.get (h : StageHandles) : Axis → Option Nat
  | .x => h.hx
  | .y => h.hy
  | .z => h.hz

def StageHandles.set (h : StageHandles) : Axis → Option Nat → StageHandles
  | .x, v => { h with hx := v }
  | .y, v => { h with hy := v }
  | .z, v => { h with hz := v }

def emptyHandles : StageHandles := ⟨none, none, none⟩

/-- The handle-table entries, in the fixed axis order x, y, z (the Python
dict's iteration order is its insertion order; no claim depends on the
order among axes). -/
def StageHandles.entries (h : StageHandles) : List Nat :=
  (h.hx.toList ++ h.hy.toList ++ h.hz.toList)

/-- Outcomes of vendor-SDK calls: which device each axis connects to, the
position each device reports, and which operations raise. -/
structure DevEnv where
  devFor : Axis → Nat
  posMm : Nat → ℚ
  initFails : Axis → Bool
  moveFails : Nat → Bool
  disconnectFails : Nat → Bool
  closeFails : Nat → Bool

/-- Python `str.lower()` over the ASCII range the axis strings use. -/
def pyLowerChar (c : Char) : Char :=
  if 'A' ≤ c ∧ c ≤ 'Z' then Char.ofNat (c.toNat + 32) else c

def pyLower (s : String) : String := String.mk (s.data.map pyLowerChar)

namespace StageFacade

/-- `yOCTStageInit_1axis` (thorlabs_imager_stage.py): validate the axis,
create and configure the KST201 device (velocity 2.0 mm/s, acceleration
3.0 mm/s²), read the position, and only on full success store the handle; on
an SDK error, best-effort disconnect/close the device, drop any stale handle
and raise RuntimeError.  XA-SDK startup and the CWD workaround are
process-global plumbing with no observable effect on the handle table. -/
def yOCTStageInit_1axis (env : DevEnv) (h : StageHandles) (axes : String) :
    StageHandles × Except PyErr ℚ × List Action :=
  match parseAxis (pyLower axes) with
  | none => (h, Except.error (PyErr.valueError ("Invalid axis: " ++ axes)), [])
  | some a =>
    let d := env.devFor a
    if env.initFails a then
      (h.set a none,
       Except.error (PyErr.runtimeError ("Error initializing stage for axis '" ++ a.toStr ++ "'")),
       [Action.devInit a d, Action.devDisconnect d, Action.devClose d])
    else
      (h.set a (some d), Except.ok (env.posMm d),
       [Action.devInit a d, Action.setVelocityParams d, Action.readPosition d])

/-- `yOCTStageSetPosition_1axis` (thorlabs_imager_stage.py): look the handle
up (RuntimeError when absent), convert mm to device units and issue an
absolute move with a 120 s SDK timeout.  No travel-limit check of any kind:
any target is passed to the device. -/
def yOCTStageSetPosition_1axis (env : DevEnv) (h : StageHandles) (axis : String) (position_mm : ℚ) :
    Except PyErr Unit × List Action :=
  match parseAxis (pyLower axis) with
  | none =>
    (Except.error (PyErr.runtimeError ("Stage for axis " ++ pyLower axis ++ " not initialized.")), [])
  | some a =>
    match h.get a with
    | none =>
      (Except.error (PyErr.runtimeError ("Stage for axis " ++ a.toStr ++ " not initialized.")), [])
    | some d =>
      if env.moveFails d then
        (Except.error (PyErr.runtimeError ("Error during move for axis " ++ a.toStr)),
         [Action.moveAbsoluteCmd d position_mm])
      else
        (Except.ok (), [Action.moveAbsoluteCmd d position_mm])

/-- `yOCTStageClose_1axis` (thorlabs_imager_stage.py): disconnect then close
(each attempted even if the other raises), always delete the handle, and
raise RuntimeError afterwards when either step raised. -/
def yOCTStageClose_1axis (env : DevEnv) (h : StageHandles) (axis : String) :
    StageHandles × Except PyErr Unit × List Action :=
  match parseAxis (pyLower axis) with
  | none => (h, Except.ok (), [])
  | some a =>
    match h.get a with
    | none => (h, Except.ok (), [])
    | some d =>
      (h.set a none,
       if env.disconnectFails d ∨ env.closeFails d then
         Except.error (PyErr.runtimeError ("Error closing stage for axis " ++ a.toStr))
       else Except.ok (),
       [Action.devDisconnect d, Action.devClose d])

/-- `yOCTCloseAllStages` (thorlabs_imager_stage.py): pop every handle,
best-effort disconnect then close each, then collect garbage. -/
def yOCTCloseAllStages (h : StageHandles) : StageHandles × List Action :=
  (emptyHandles, h.entries.flatMap (fun d => [Action.devDisconnect d, Action.devClose d]) ++ [Action.gcCollect])

end StageFacade

/-- C3: closing an axis always removes its handle-table entry, raising or not;
with the entry gone, a move on that axis raises RuntimeError and commands
nothing; a successful re-init restores an entry for the axis. -/
theorem stage_close_removes_handle_blocks_move :
    ∀ (env : DevEnv) (h : StageHandles) (a : Axis) (pos : ℚ),
      ((StageFacade.yOCTStageClose_1axis env h a.toStr).1).get a = none ∧
      (∀ h' : StageHandles, h'.get a = none →
        StageFacade.yOCTStageSetPosition_1axis env h' a.toStr pos =
          (Except.error (PyErr.runtimeError ("Stage for axis " ++ a.toStr ++ " not initialized.")),
           [])) ∧
      (env.initFails a = false →
        ((StageFacade.yOCTStageInit_1axis env h a.toStr).1).get a = some (env.devFor a)) := by
  intro env h a pos
  refine ⟨?_, ?_, ?_⟩
  · cases a <;>
      simp only [StageFacade.yOCTStageClose_1axis, Axis.toStr] <;>
      [cases hx : h.hx; cases hy : h.hy; cases hz : h.hz] <;>
      simp_all [parseAxis, pyLower, pyLowerChar, StageHandles.get, StageHandles.set]
  · intro h' hnone
    cases a <;>
      simp_all [StageFacade.yOCTStageSetPosition_1axis, Axis.toStr, parseAxis, pyLower,
        pyLowerChar, StageHandles.get]
  · intro hinit
    cases a <;>
      simp_all [StageFacade.yOCTStageInit_1axis, Axis.toStr, parseAxis, pyLower, pyLowerChar,
        StageHandles.get, StageHandles.set]

/-- An environment in which every SDK call succeeds, every axis connects to
device 1, and every device reports position 0 mm. -/
def demoEnv : DevEnv :=
  { devFor := fun _ => 1
    posMm := fun _ => 0
    initFails := fun _ => false
    moveFails := fun _ => false
    disconnectFails := fun _ => false
    closeFails := fun _ => false }

/-- C3 witness: close, blocked move, and re-init evaluated on axis x. -/
theorem stage_close_removes_handle_blocks_move_witness :
    ((StageFacade.yOCTStageClose_1axis demoEnv (StageHandles.set emptyHandles Axis.x (some 1))
        (Axis.x.toStr)).1).get Axis.x = none ∧
    StageFacade.yOCTStageSetPosition_1axis demoEnv emptyHandles (Axis.x.toStr) 5 =
      (Except.error (PyErr.runtimeError ("Stage for axis " ++ Axis.x.toStr ++ " not initialized.")),
       []) ∧
    ((StageFacade.yOCTStageInit_1axis demoEnv emptyHandles (Axis.x.toStr)).1).get Axis.x =
      some (demoEnv.devFor Axis.x) :=
  ⟨(stage_close_removes_handle_blocks_move demoEnv
      (StageHandles.set emptyHandles Axis.x (some 1)) Axis.x 5).1,
   (stage_close_removes_handle_blocks_move demoEnv emptyHandles Axis.x 5).2.1 emptyHandles rfl,
   (stage_close_removes_handle_blocks_move demoEnv emptyHandles Axis.x 5).2.2 rfl⟩

/-! ### Persistent stage server (thorlabs_stage_server.py) -/

/-- `str(e)` as `send_response` reports it. -/
def PyErr.message : PyErr → String
  | .runtimeError m => m
  | .valueError m => m
  | .fileNotFoundError m => m
  | .fileExistsError m => m

namespace StageServer

/-- Server-side module state: `_stage_handles` and `_xa_initialized`. -/
structure SrvState where
  handles : StageHandles
  xaInitialized : Bool
deriving DecidableEq

/-- `min_mm, max_mm = 0.0, 13.0` in `handle_move`. -/
def stageMinMm : ℚ := 0

def stageMaxMm : ℚ := 13

/-- `abs(delta_mm) < 1e-6` in `handle_move`. -/
def moveEpsMm : ℚ := 1 / 1000000

/-- `handle_init`: validate the axis, lazily start the XA SDK, create and
configure the KST201 device, read its position and store the handle; on an
SDK error close and drop any stale handle for the axis and re-raise. -/
def handle_init (env : DevEnv) (s : SrvState) (axisStr : String) :
    SrvState × Except PyErr ℚ × List Action :=
  let axl := pyLower axisStr
  match parseAxis axl with
  | none => (s, Except.error (PyErr.valueError ("Invalid axis: " ++ axl)), [])
  | some a =>
    let s1 : SrvState := { s with xaInitialized := true }
    let d := env.devFor a
    if env.initFails a then
      match s1.handles.get a with
      | some old =>
        ({ s1 with handles := s1.handles.set a none },
         Except.error (PyErr.runtimeError ("stage init failed")), [Action.devClose old])
      | none => (s1, Except.error (PyErr.runtimeError ("stage init failed")), [])
    else
      ({ s1 with handles := s1.handles.set a (some d) },
       Except.ok (env.posMm d),
       [Action.devInit a d, Action.readPosition d])

/-- The `try` body of `handle_move` once a device handle is at hand: validate
the `[0, 13]` mm travel limits before anything else, read the current
position, return without commanding a move when already within 1e-6 mm of the
target, otherwise command a relative move; any raise is wrapped as
``Move failed for axis ...``. -/
def moveWithDevice (env : DevEnv) (s : SrvState) (a : Axis) (d : Nat) (position_mm : ℚ)
    (acts0 : List Action) : SrvState × Except PyErr Unit × List Action :=
  if ¬ (stageMinMm ≤ position_mm ∧ position_mm ≤ stageMaxMm) then
    (s, Except.error (PyErr.runtimeError ("Move failed for axis " ++ a.toStr ++ ": position out of range")),
     acts0)
  else
    let delta := position_mm - env.posMm d
    if |delta| < moveEpsMm then
      (s, Except.ok (), acts0 ++ [Action.readPosition d])
    else if env.moveFails d then
      (s, Except.error (PyErr.runtimeError ("Move failed for axis " ++ a.toStr)),
       acts0 ++ [Action.readPosition d, Action.moveRelativeCmd d delta])
    else
      (s, Except.ok (), acts0 ++ [Action.readPosition d, Action.moveRelativeCmd d delta])

/-- `handle_move`: auto-init when the axis has no live handle (an init error
propagates unwrapped, as in the source where the auto-init sits before the
`try`), then run the guarded move body.  For an invalid axis string the
auto-init path raises `ValueError` exactly as `handle_init` does. -/
def handle_move (env : DevEnv) (s : SrvState) (axisStr : String) (position_mm : ℚ) :
    SrvState × Except PyErr Unit × List Action :=
  let axl := pyLower axisStr
  match parseAxis axl with
  | none => (s, Except.error (PyErr.valueError ("Invalid axis: " ++ axl)), [])
  | some a =>
    match s.handles.get a with
    | some d => moveWithDevice env s a d position_mm []
    | none =>
      let r := handle_init env s axisStr
      match r.2.1 with
      | Except.error e => (r.1, Except.error e, r.2.2)
      | Except.ok _ => moveWithDevice env r.1 a (env.devFor a) position_mm r.2.2

/-- `handle_close`: best-effort disconnect and close, then drop the handle;
never raises. -/
def handle_close (s : SrvState) (axisStr : String) : SrvState × List Action :=
  match parseAxis (pyLower axisStr) with
  | none => (s, [])
  | some a =>
    match s.handles.get a with
    | none => (s, [])
    | some d =>
      ({ s with handles := s.handles.set a none }, [Action.devDisconnect d, Action.devClose d])

/-- `handle_shutdown`: close every axis (closing an axis with no handle is a
no-op, so iterating all three axes equals iterating the dict's keys). -/
def handle_shutdown (s : SrvState) : SrvState × List Action :=
  let r1 := handle_close s ("x")
  let r2 := handle_close r1.1 ("y")
  let r3 := handle_close r2.1 ("z")
  (r3.1, r1.2 ++ r2.2 ++ r3.2)

/-- One line of the server's stdin, after `json.loads` and argument
extraction: `malformed` covers a line whose JSON parse or argument access
raises; a `move` whose second argument fails `float()` carries `none`. -/
inductive SrvCmd
  | malformed
  | init (axisStr : String)
  | move (axisStr : String) (pos : Option ℚ)
  | close (axisStr : String)
  | shutdown
  | unknown (name : String)
deriving DecidableEq

/-- One line of the server's stdout. -/
inductive SrvResponse
  | ready
  | okFloat (result : ℚ)
  | okMsg
  | err (msg : String)
deriving DecidableEq

/-- Dispatch of one non-terminating command inside the `while` loop: every
command produces exactly one response, `ok` on success and `error` with
`str(e)` when the handler raises or the command is unknown. -/
def execCmd (env : DevEnv) (s : SrvState) : SrvCmd → SrvState × SrvResponse × List Action
  | .malformed => (s, SrvResponse.err ("invalid request line"), [])
  | .init ax =>
    let r := handle_init env s ax
    (r.1,
     match r.2.1 with
     | Except.ok p => SrvResponse.okFloat p
     | Except.error e => SrvResponse.err e.message,
     r.2.2)
  | .move ax pos? =>
    match pos? with
    | none => (s, SrvResponse.err ("could not convert string to float"), [])
    | some p =>
      let r := handle_move env s ax p
      (r.1,
       match r.2.1 with
       | Except.ok _ => SrvResponse.okMsg
       | Except.error e => SrvResponse.err e.message,
       r.2.2)
  | .close ax =>
    let r := handle_close s ax
    (r.1, SrvResponse.okMsg, r.2)
  | .shutdown =>
    let r := handle_shutdown s
    (r.1, SrvResponse.okMsg, r.2)
  | .unknown n => (s, SrvResponse.err ("Unknown command: " ++ n), [])

/-- The `while True` read/dispatch loop of `main` plus its `finally`:
EOF breaks the loop and the `finally` closes all axes; `shutdown` closes all
axes, answers ok, breaks, and the `finally` closes again (a no-op); every
other line is dispatched and answered, and the loop continues. -/
def serverLoop (env : DevEnv) (s : SrvState) :
    List SrvCmd → SrvState × List SrvResponse × List Action
  | [] =>
    let r := handle_shutdown s
    (r.1, [], r.2)
  | SrvCmd.shutdown :: _ =>
    let r1 := handle_shutdown s
    let r2 := handle_shutdown r1.1
    (r2.1, [SrvResponse.okMsg], r1.2 ++ r2.2)
  | c :: rest =>
    let r := execCmd env s c
    let t := serverLoop env r.1 rest
    (t.1, r.2.1 :: t.2.1, r.2.2 ++ t.2.2)

/-- `main`: emit the single ready line, then run the loop. -/
def serverMain (env : DevEnv) (s : SrvState) (input : List SrvCmd) :
    SrvState × List SrvResponse × List Action :=
  let t := serverLoop env s input
  (t.1, SrvResponse.ready :: t.2.1, t.2.2)

/-- Number of stdin lines the server consumes: everything up to and including
the first `shutdown`, or the whole input at EOF. -/
def processedCount : List SrvCmd → Nat
  | [] => 0
  | SrvCmd.shutdown :: _ => 1
  | _ :: rest => 1 + processedCount rest

theorem handle_shutdown_handles (s : SrvState) : (handle_shutdown s).1.handles = emptyHandles := by
  rcases s with ⟨⟨ox, oy, oz⟩, xa⟩
  cases ox <;> cases oy <;> cases oz <;> rfl

theorem serverLoop_length (env : DevEnv) (input : List SrvCmd) :
    ∀ s, (serverLoop env s input).2.1.length = processedCount input := by
  induction input with
  | nil => intro s; rfl
  | cons c rest ih =>
    intro s
    cases c with
    | shutdown => rfl
    | malformed => simp [serverLoop, processedCount, ih, Nat.add_comm]
    | init ax => simp [serverLoop, processedCount, ih, Nat.add_comm]
    | move ax p => simp [serverLoop, processedCount, ih, Nat.add_comm]
    | close ax => simp [serverLoop, processedCount, ih, Nat.add_comm]
    | unknown n => simp [serverLoop, processedCount, ih, Nat.add_comm]

theorem serverLoop_final_handles (env : DevEnv) (input : List SrvCmd) :
    ∀ s, ((serverLoop env s input).1).handles = emptyHandles := by
  induction input with
  | nil => intro s; exact handle_shutdown_handles s
  | cons c rest ih =>
    intro s
    cases c with
    | shutdown => exact handle_shutdown_handles (handle_shutdown s).1
    | malformed => simp [serverLoop, ih]
    | init ax => simp [serverLoop, ih]
    | move ax p => simp [serverLoop, ih]
    | close ax => simp [serverLoop, ih]
    | unknown n => simp [serverLoop, ih]

theorem serverLoop_no_ready (env : DevEnv) (input : List SrvCmd) :
    ∀ s, ∀ r ∈ (serverLoop env s input).2.1, r ≠ SrvResponse.ready := by
  induction input with
  | nil => intro s r hr; cases hr
  | cons c rest ih =>
    intro s r hr
    cases c with
    | shutdown =>
      rcases List.mem_singleton.mp hr with rfl
      intro h; cases h
    | malformed =>
      rcases List.mem_cons.mp hr with h | h
      · subst h; intro h2; cases h2
      · exact ih _ r h
    | init ax =>
      rcases List.mem_cons.mp hr with h | h
      · subst h
        cases hr2 : (handle_init env s ax).2.1 <;> simp [execCmd, hr2]
      · exact ih _ r h
    | move ax p =>
      rcases List.mem_cons.mp hr with h | h
      · subst h
        cases p with
        | none => intro h2; cases h2
        | some q =>
          cases hr2 : (handle_move env s ax q).2.1 <;> simp [execCmd, hr2]
      · exact ih _ r h
    | close ax =>
      rcases List.mem_cons.mp hr with h | h
      · subst h; intro h2; cases h2
      · exact ih _ r h
    | unknown n =>
      rcases List.mem_cons.mp hr with h | h
      · subst h; intro h2; cases h2
      · exact ih _ r h

theorem processedCount_of_no_shutdown (input : List SrvCmd)
    (h : SrvCmd.shutdown ∉ input) : processedCount input = input.length := by
  induction input with
  | nil => rfl
  | cons c rest ih =>
    have hc : c ≠ SrvCmd.shutdown := fun he => h (he ▸ List.mem_cons_self c rest)
    have hrest : SrvCmd.shutdown ∉ rest := fun he => h (List.mem_cons_of_mem c he)
    cases c with
    | shutdown => exact absurd rfl hc
    | malformed => simp [processedCount, ih hrest, Nat.add_comm]
    | init ax => simp [processedCount, ih hrest, Nat.add_comm]
    | move ax p => simp [processedCount, ih hrest, Nat.add_comm]
    | close ax => simp [processedCount, ih hrest, Nat.add_comm]
    | unknown n => simp [processedCount, ih hrest, Nat.add_comm]

end StageServer

/-- C7: the stage server emits the single ready line first, answers every
consumed stdin line with exactly one non-ready (ok or error) response — all of
the input when no shutdown occurs, otherwise everything up to and including
the first shutdown — and the loop ends only at shutdown or EOF, in either case
with every axis closed; an unknown command and an unparseable line are
answered with an error response. -/
theorem stage_server_protocol :
    ∀ (env : DevEnv) (s : StageServer.SrvState) (input : List StageServer.SrvCmd),
      ((StageServer.serverMain env s input).2.1.head? = some StageServer.SrvResponse.ready) ∧
      ((StageServer.serverMain env s input).2.1.length = 1 + StageServer.processedCount input) ∧
      (((StageServer.serverMain env s input).1).handles = emptyHandles) ∧
      (∀ r ∈ ((StageServer.serverMain env s input).2.1).tail, r ≠ StageServer.SrvResponse.ready) ∧
      (StageServer.SrvCmd.shutdown ∉ input →
        StageServer.processedCount input = input.length) ∧
      (∀ n, (StageServer.execCmd env s (StageServer.SrvCmd.unknown n)).2.1 =
        StageServer.SrvResponse.err ("Unknown command: " ++ n)) ∧
      ((StageServer.execCmd env s StageServer.SrvCmd.malformed).2.1 =
        StageServer.SrvResponse.err ("invalid request line")) := by
  intro env s input
  refine ⟨rfl, ?_, ?_, ?_, StageServer.processedCount_of_no_shutdown input, fun n => rfl, rfl⟩
  · simpa [StageServer.serverMain, Nat.add_comm] using StageServer.serverLoop_length env input s
  · simpa [StageServer.serverMain] using StageServer.serverLoop_final_handles env input s
  · simpa [StageServer.serverMain] using StageServer.serverLoop_no_ready env input s

/-- C7 witness: the protocol properties evaluated on a concrete session that
sends an unknown command and then shutdown, and on a session that only
sends a malformed line. -/
theorem stage_server_protocol_witness :
    ((StageServer.serverMain demoEnv ⟨emptyHandles, false⟩
        [StageServer.SrvCmd.unknown ("foo"), StageServer.SrvCmd.shutdown]).2.1.length =
      1 + StageServer.processedCount
        [StageServer.SrvCmd.unknown ("foo"), StageServer.SrvCmd.shutdown]) ∧
    (((StageServer.serverMain demoEnv ⟨emptyHandles, false⟩
        [StageServer.SrvCmd.malformed]).1).handles = emptyHandles) ∧
    (StageServer.SrvResponse.err ("Unknown command: foo") ≠ StageServer.SrvResponse.ready) ∧
    (StageServer.processedCount [StageServer.SrvCmd.malformed] =
      [StageServer.SrvCmd.malformed].length) :=
  ⟨(stage_server_protocol demoEnv ⟨emptyHandles, false⟩
      [StageServer.SrvCmd.unknown ("foo"), StageServer.SrvCmd.shutdown]).2.1,
   (stage_server_protocol demoEnv ⟨emptyHandles, false⟩
      [StageServer.SrvCmd.malformed]).2.2.1,
   (stage_server_protocol demoEnv ⟨emptyHandles, false⟩
      [StageServer.SrvCmd.unknown ("foo"), StageServer.SrvCmd.shutdown]).2.2.2.1
      (StageServer.SrvResponse.err ("Unknown command: foo")) (by decide),
   (stage_server_protocol demoEnv ⟨emptyHandles, false⟩
      [StageServer.SrvCmd.malformed]).2.2.2.2.1 (by decide)⟩

/-- The auto-init step of `handle_move` never commands a move: `handle_init`
only creates, configures and reads the device (or closes a stale handle). -/
theorem handle_init_no_move (env : DevEnv) (s : StageServer.SrvState) (axisStr : String) :
    ∀ act ∈ (StageServer.handle_init env s axisStr).2.2, act.isMoveCmd = false := by
  intro act hact
  rcases hpa : parseAxis (pyLower axisStr) with _ | a
  · simp only [StageServer.handle_init, hpa] at hact
    cases hact
  · rcases hf : env.initFails a with _ | _
    · simp only [StageServer.handle_init, hpa, hf, Bool.false_eq_true, if_false,
        List.mem_cons, List.not_mem_nil, or_false] at hact
      rcases hact with rfl | rfl <;> rfl
    · rcases hg : s.handles.get a with _ | old
      · simp only [StageServer.handle_init, hpa, hf, if_true, hg] at hact
        cases hact
      · simp only [StageServer.handle_init, hpa, hf, if_true, hg, List.mem_cons,
          List.not_mem_nil, or_false] at hact
        subst hact; rfl

/-- C2 (counterexample): the claim locates travel-limit validation in the
stage facade's move.  With axis x initialized (device 1) and the out-of-range
target −5 mm (below the 0 mm lower limit the code elsewhere enforces),
`yOCTStageSetPosition_1axis` does not reject: it reports success and issues
the absolute move command to the device. -/
theorem facade_move_no_limit_validation_cex :
    ((-5 : ℚ) < StageServer.stageMinMm) ∧
    StageFacade.yOCTStageSetPosition_1axis demoEnv
        (StageHandles.set emptyHandles Axis.x (some 1)) ("x") (-5) =
      (Except.ok (), [Action.moveAbsoluteCmd 1 (-5)]) := by
  constructor
  · decide
  · rfl

/-- C2 (amended): travel-limit validation lives in the stage server's
`handle_move`, not in the facade's `yOCTStageSetPosition_1axis` (which passes
any target straight to the device): for every target outside [0, 13] mm,
`handle_move` fails with an error and its trace contains no move command. -/
theorem server_move_limit_validation :
    ∀ (env : DevEnv) (s : StageServer.SrvState) (axisStr : String) (pos : ℚ),
      (pos < StageServer.stageMinMm ∨ StageServer.stageMaxMm < pos) →
      (∃ e, (StageServer.handle_move env s axisStr pos).2.1 = Except.error e) ∧
      (∀ act ∈ (StageServer.handle_move env s axisStr pos).2.2, act.isMoveCmd = false) := by
  intro env s axisStr pos hout
  have hnotin : ¬ (StageServer.stageMinMm ≤ pos ∧ pos ≤ StageServer.stageMaxMm) := by
    rcases hout with h | h
    · exact fun hin => absurd hin.1 (not_le.mpr h)
    · exact fun hin => absurd hin.2 (not_le.mpr h)
  constructor
  · rcases hpa : parseAxis (pyLower axisStr) with _ | a
    · simp only [StageServer.handle_move, hpa]
      exact ⟨_, rfl⟩
    · rcases hg : s.handles.get a with _ | d
      · rcases hr : (StageServer.handle_init env s axisStr).2.1 with e | q
        · simp only [StageServer.handle_move, hpa, hg, hr]
          exact ⟨e, rfl⟩
        · simp only [StageServer.handle_move, hpa, hg, hr,
            StageServer.moveWithDevice, if_pos hnotin]
          exact ⟨_, rfl⟩
      · simp only [StageServer.handle_move, hpa, hg,
          StageServer.moveWithDevice, if_pos hnotin]
        exact ⟨_, rfl⟩
  · intro act hact
    rcases hpa : parseAxis (pyLower axisStr) with _ | a
    · simp only [StageServer.handle_move, hpa] at hact
      cases hact
    · rcases hg : s.handles.get a with _ | d
      · rcases hr : (StageServer.handle_init env s axisStr).2.1 with e | q
        · simp only [StageServer.handle_move, hpa, hg, hr] at hact
          exact handle_init_no_move env s axisStr act hact
        · simp only [StageServer.handle_move, hpa, hg, hr,
            StageServer.moveWithDevice, if_pos hnotin] at hact
          exact handle_init_no_move env s axisStr act hact
      · simp only [StageServer.handle_move, hpa, hg,
          StageServer.moveWithDevice, if_pos hnotin] at hact
        cases hact

/-- C2 witness: the amended claim evaluated for target 14 mm on axis x. -/
theorem server_move_limit_validation_witness :
    (∃ e, (StageServer.handle_move demoEnv ⟨emptyHandles, false⟩ ("x") 14).2.1 =
      Except.error e) ∧
    (∀ act ∈ (StageServer.handle_move demoEnv ⟨emptyHandles, false⟩ ("x") 14).2.2,
      act.isMoveCmd = false) :=
  server_move_limit_validation demoEnv ⟨emptyHandles, false⟩ ("x") 14 (Or.inr (by decide))

theorem parseAxis_toStr (a : Axis) : parseAxis (pyLower a.toStr) = some a := by
  cases a <;> rfl

theorem StageHandles.get_set_self (h : StageHandles) (a : Axis) (v : Option Nat) :
    (h.set a v).get a = v := by
  cases a <;> rfl

/-- C10: `handle_move` auto-initializes an axis that has no live handle (as
after a close) instead of failing, and when the current position is within
1e-6 mm of the in-range target it succeeds with no move command issued, so
the device's motion state is untouched. -/
theorem server_move_autoinit_and_skip :
    ∀ (env : DevEnv) (s : StageServer.SrvState) (a : Axis) (pos : ℚ),
      s.handles.get a = none →
      env.initFails a = false →
      StageServer.stageMinMm ≤ pos →
      pos ≤ StageServer.stageMaxMm →
      |pos - env.posMm (env.devFor a)| < StageServer.moveEpsMm →
      (∀ s' : StageServer.SrvState,
        ((StageServer.handle_close s' a.toStr).1).handles.get a = none) ∧
      StageServer.handle_move env s a.toStr pos =
        ({ handles := s.handles.set a (some (env.devFor a)), xaInitialized := true },
         Except.ok (),
         [Action.devInit a (env.devFor a), Action.readPosition (env.devFor a),
          Action.readPosition (env.devFor a)]) ∧
      (∀ act ∈ (StageServer.handle_move env s a.toStr pos).2.2, act.isMoveCmd = false) := by
  intro env s a pos hnone hinit hlo hhi heps
  have heq : StageServer.handle_move env s a.toStr pos =
      ({ handles := s.handles.set a (some (env.devFor a)), xaInitialized := true },
       Except.ok (),
       [Action.devInit a (env.devFor a), Action.readPosition (env.devFor a),
        Action.readPosition (env.devFor a)]) := by
    have hin : StageServer.stageMinMm ≤ pos ∧ pos ≤ StageServer.stageMaxMm :=
      And.intro hlo hhi
    simp only [StageServer.handle_move, parseAxis_toStr, hnone, StageServer.handle_init,
      hinit, Bool.false_eq_true, if_false, StageServer.moveWithDevice,
      if_neg (not_not_intro hin), if_pos heps, List.cons_append, List.nil_append]
  refine ⟨?_, heq, ?_⟩
  · intro s'
    rcases hg : s'.handles.get a with _ | d
    · simp only [StageServer.handle_close, parseAxis_toStr, hg]
    · simp only [StageServer.handle_close, parseAxis_toStr, hg]
      exact StageHandles.get_set_self s'.handles a none
  · intro act hact
    rw [heq] at hact
    simp only [List.mem_cons, List.not_mem_nil, or_false] at hact
    rcases hact with rfl | rfl | rfl <;> rfl

/-- C10 witness: auto-init plus skipped move evaluated on axis y at target
0 mm with the device already at 0 mm. -/
theorem server_move_autoinit_and_skip_witness :
    ((StageServer.handle_close (⟨emptyHandles, false⟩ : StageServer.SrvState)
        (Axis.y.toStr)).1).handles.get Axis.y = none ∧
    StageServer.handle_move demoEnv ⟨emptyHandles, false⟩ (Axis.y.toStr) 0 =
      ({ handles := emptyHandles.set Axis.y (some (demoEnv.devFor Axis.y)),
         xaInitialized := true },
       Except.ok (),
       [Action.devInit Axis.y (demoEnv.devFor Axis.y),
        Action.readPosition (demoEnv.devFor Axis.y),
        Action.readPosition (demoEnv.devFor Axis.y)]) :=
  ⟨(server_move_autoinit_and_skip demoEnv ⟨emptyHandles, false⟩ Axis.y 0 rfl rfl
      (le_refl 0) (by decide) (by norm_num [demoEnv, StageServer.moveEpsMm])).1
      ⟨emptyHandles, false⟩,
   (server_move_autoinit_and_skip demoEnv ⟨emptyHandles, false⟩ Axis.y 0 rfl rfl
      (le_refl 0) (by decide) (by norm_num [demoEnv, StageServer.moveEpsMm])).2.1⟩

/-! ### `_apply_probe_config_to_probe` (thorlabs_imager_oct.py) -/

/-- `float(x)` applied to a parsed config value: floats and ints convert,
strings re-parse through `float()`, lists raise `TypeError` (converted keys
whose value fails are skipped best-effort). -/
def pyFloatOfIniValue : IniValue → Option ℚ
  | .floatV q => some q
  | .intV n => some ((n : ℚ))
  | .listV _ => none
  | .strV v => pyParseFloat v.data

/-- `config[key]` lookup (`key in config` then access). -/
def lookupConfig (cfg : List (String × IniValue)) (k : String) : Option IniValue :=
  (cfg.find? (fun p => p.1 == k)).map (fun p => p.2)

/-- One `probe.properties.<setter>(value)` invocation, tagged with the .ini
key that triggered it. -/
structure SetterCall where
  iniKey : String
  setter : String
  value : ℚ
deriving DecidableEq

/-- `property_mappings` of `_apply_probe_config_to_probe` (every converter in
the source table is `float`). -/
def propertyMappings : List (String × String) :=
  [("FactorX", "set_factor_x"),
   ("FactorY", "set_factor_y"),
   ("OffsetX", "set_offset_x"),
   ("OffsetY", "set_offset_y"),
   ("RangeMaxX", "set_range_max_x"),
   ("RangeMaxY", "set_range_max_y"),
   ("ApoVoltage", "set_apo_volt_x"),
   ("FlybackTime", "set_flyback_time_sec"),
   ("CameraScalingX", "set_camera_scaling_x"),
   ("CameraScalingY", "set_camera_scaling_y"),
   ("CameraOffsetX", "set_camera_offset_x"),
   ("CameraOffsetY", "set_camera_offset_y"),
   ("CameraAngle", "set_camera_angle")]

/-- The .ini keys that drive a property setter. -/
def knownConfigKeys : List String := propertyMappings.map (fun m => m.1)

/-- `_apply_probe_config_to_probe`: iterate `property_mappings`, invoking the
setter for each mapped key present in the config whose value converts (a
missing setter or failing conversion is skipped), then the ApoVoltage special
case that also sets `set_apo_volt_y`.  The config dict is returned unchanged:
the function never writes into it. -/
def applyProbeConfig (cfg : List (String × IniValue)) :
    List SetterCall × List (String × IniValue) :=
  ((propertyMappings.filterMap (fun m =>
      match lookupConfig cfg m.1 with
      | none => none
      | some v =>
        match pyFloatOfIniValue v with
        | some q => some (SetterCall.mk m.1 m.2 q)
        | none => none))
    ++ (match lookupConfig cfg ("ApoVoltage") with
        | none => []
        | some v =>
          match pyFloatOfIniValue v with
          | some q => [SetterCall.mk ("ApoVoltage") ("set_apo_volt_y") q]
          | none => []),
   cfg)

/-- Every setter invocation is triggered by a key of `property_mappings` (or
the ApoVoltage special case). -/
theorem applyProbeConfig_calls_known (cfg : List (String × IniValue)) :
    ∀ call ∈ (applyProbeConfig cfg).1, call.iniKey ∈ knownConfigKeys := by
  intro call hcall
  rcases List.mem_append.mp hcall with h | h
  · rcases List.mem_filterMap.mp h with ⟨m, hm, hf⟩
    rcases hl : lookupConfig cfg m.1 with _ | v
    · simp only [hl] at hf
      cases hf
    · simp only [hl] at hf
      rcases hq : pyFloatOfIniValue v with _ | q
      · simp only [hq] at hf
        cases hf
      · simp only [hq, Option.some_inj] at hf
        rw [hf.symm]
        exact List.mem_map.mpr ⟨m, hm, rfl⟩
  · rcases hl : lookupConfig cfg ("ApoVoltage") with _ | v
    · simp only [hl] at h
      cases h
    · simp only [hl] at h
      rcases hq : pyFloatOfIniValue v with _ | q
      · simp only [hq] at h
        cases h
      · simp only [hq, List.mem_singleton] at h
        rw [h]
        show ("ApoVoltage" : String) ∈ knownConfigKeys
        decide

/-- C5: unknown probe-config keys are retained but unused: a key outside the
13-entry property-mapping table triggers no setter invocation, and applying
the config leaves the config map unchanged (so the key stays present with its
value). -/
theorem unknown_probe_keys_unused :
    ∀ (cfg : List (String × IniValue)) (k : String),
      k ∉ knownConfigKeys →
      (∀ call ∈ (applyProbeConfig cfg).1, call.iniKey ≠ k) ∧
      (applyProbeConfig cfg).2 = cfg := by
  intro cfg k hk
  exact ⟨fun call hcall hek => hk (hek ▸ applyProbeConfig_calls_known cfg call hcall), rfl⟩

/-- C5 witness: the unknown key "Oct2StageXYAngleDeg" (a myOCT-specific key
the probe files carry) drives no setter and survives application. -/
theorem unknown_probe_keys_unused_witness :
    (∀ call ∈ (applyProbeConfig [(("Oct2StageXYAngleDeg" : String), IniValue.intV 90)]).1,
      call.iniKey ≠ ("Oct2StageXYAngleDeg" : String)) ∧
    (applyProbeConfig [(("Oct2StageXYAngleDeg" : String), IniValue.intV 90)]).2 =
      [(("Oct2StageXYAngleDeg" : String), IniValue.intV 90)] :=
  unknown_probe_keys_unused [(("Oct2StageXYAngleDeg" : String), IniValue.intV 90)]
    ("Oct2StageXYAngleDeg") (by decide)

/-! ### Scanner module state and `yOCTCloseAll` (thorlabs_imager_oct.py) -/

/-- Module-level state of `thorlabs_imager_oct.py`: the four scanner object
slots (`_oct_system`, `_device`, `_probe`, `_processing` each either live or
None), `_scanner_initialized`, `_probe_config`, the stage handle table and
the `XASDK._oct_xa_started` flag. -/
structure OctModuleState where
  stageHandles : StageHandles
  scannerInitialized : Bool
  octSystem : Bool
  deviceObj : Bool
  probeObj : Bool
  processingObj : Bool
  probeConfig : List (String × IniValue)
  xaStarted : Bool
deriving DecidableEq

namespace OctScanner

/-- `yOCTScannerClose`: under the shutdown lock, stop any ongoing acquisition
if a device is live, delete the four SDK objects, clear the flag, force
garbage collection and sleep.  Every step is wrapped in bare excepts, so it
never raises. -/
def yOCTScannerClose (s : OctModuleState) : OctModuleState × List Action :=
  ({ s with octSystem := false, deviceObj := false, probeObj := false,
            processingObj := false, scannerInitialized := false },
   (if s.deviceObj then [Action.scannerDeviceStop] else []) ++ [Action.gcCollect])

/-- The `has_resources` check of `yOCTCloseAll`: stage handles, the
initialized flag, a live `_oct_system`, or a started XA SDK. -/
def hasResources (s : OctModuleState) : Bool :=
  !s.stageHandles.entries.isEmpty || s.scannerInitialized || s.octSystem || s.xaStarted

/-- The best-effort disconnect → close pass over every stage handle. -/
def closeAllHandleActions (h : StageHandles) : List Action :=
  h.entries.flatMap (fun d => [Action.devDisconnect d, Action.devClose d])

/-- `yOCTCloseAll` (thorlabs_imager_oct.py): under the re-entrant shutdown
lock, return immediately when no resource remains; otherwise pop and close
every stage handle (disconnect → close, best effort), close the scanner via
`yOCTScannerClose` when `_scanner_initialized`, deliberately leave the XA SDK
running, and force a final garbage collection. -/
def yOCTCloseAll (s : OctModuleState) : OctModuleState × List Action :=
  if hasResources s then
    let acts := closeAllHandleActions s.stageHandles
    let s1 := { s with stageHandles := emptyHandles }
    if s1.scannerInitialized then
      let r := yOCTScannerClose s1
      (r.1, acts ++ r.2 ++ [Action.gcCollect])
    else
      (s1, acts ++ [Action.gcCollect])
  else (s, [])

end OctScanner

/-- A handle stored for an axis occurs in the entries list. -/
theorem mem_entries_of_get {h : StageHandles} {a : Axis} {d : Nat}
    (hg : h.get a = some d) : d ∈ h.entries := by
  rcases h with ⟨ox, oy, oz⟩
  cases a <;> simp_all [StageHandles.get, StageHandles.entries]

/-- Each stored handle contributes its disconnect-then-close pair as an
in-order (infix) subsequence of the close-all action list. -/
theorem disconnect_close_sublist_of_mem {d : Nat} {l : List Nat} (hd : d ∈ l) :
    List.Sublist [Action.devDisconnect d, Action.devClose d]
      (l.flatMap (fun x => [Action.devDisconnect x, Action.devClose x])) := by
  induction l with
  | nil => cases hd
  | cons a r ih =>
    rcases List.mem_cons.mp hd with rfl | h
    · rw [List.flatMap_cons]
      exact List.sublist_append_left _ _
    · rw [List.flatMap_cons]
      exact List.Sublist.trans (ih h) (List.sublist_append_right _ _)

/-- C1: `yOCTCloseAll` takes the shutdown lock and checks actual resource
state: with no stage handles, no scanner objects and no started SDK it
performs no cleanup action and returns (so a repeated call after everything
is gone is a no-op); otherwise its action trace is exactly the per-handle
disconnect→close pass, then the scanner close when initialized, then the
forced garbage collection — stages strictly before the scanner, gc last —
ending with an empty handle table and the initialized flag cleared; each
handle's disconnect precedes its close. -/
theorem closeAll_idempotent_shutdown :
    ∀ s : OctModuleState,
      (OctScanner.hasResources s = false → OctScanner.yOCTCloseAll s = (s, [])) ∧
      (OctScanner.hasResources s = true →
        (OctScanner.yOCTCloseAll s).2 =
          OctScanner.closeAllHandleActions s.stageHandles ++
            (if s.scannerInitialized then
              (OctScanner.yOCTScannerClose { s with stageHandles := emptyHandles }).2
             else []) ++ [Action.gcCollect] ∧
        ((OctScanner.yOCTCloseAll s).1).stageHandles = emptyHandles ∧
        ((OctScanner.yOCTCloseAll s).1).scannerInitialized = false) ∧
      (∀ a d, s.stageHandles.get a = some d →
        List.Sublist [Action.devDisconnect d, Action.devClose d]
          (OctScanner.closeAllHandleActions s.stageHandles)) := by
  intro s
  refine ⟨fun hno => ?_, fun hyes => ?_, fun a d hg => ?_⟩
  · simp [OctScanner.yOCTCloseAll, hno]
  · rcases hsc : s.scannerInitialized with _ | _
    · refine ⟨?_, ?_, ?_⟩ <;>
        simp [OctScanner.yOCTCloseAll, OctScanner.yOCTScannerClose, hyes, hsc]
    · refine ⟨?_, ?_, ?_⟩ <;>
        simp [OctScanner.yOCTCloseAll, OctScanner.yOCTScannerClose, hyes, hsc]
  · exact disconnect_close_sublist_of_mem (mem_entries_of_get hg)

/-- C1 witness: the early return on an all-clear state, and the full cleanup
trace from a state holding a stage handle and an initialized scanner. -/
theorem closeAll_idempotent_shutdown_witness :
    OctScanner.yOCTCloseAll ⟨emptyHandles, false, false, false, false, false, [], false⟩ =
      (⟨emptyHandles, false, false, false, false, false, [], false⟩, []) ∧
    (OctScanner.yOCTCloseAll
        ⟨StageHandles.set emptyHandles Axis.x (some 1), true, true, true, true, true, [], true⟩).2 =
      OctScanner.closeAllHandleActions (StageHandles.set emptyHandles Axis.x (some 1)) ++
        (if true then
          (OctScanner.yOCTScannerClose
            ⟨emptyHandles, true, true, true, true, true, [], true⟩).2
         else []) ++ [Action.gcCollect] ∧
    List.Sublist [Action.devDisconnect 1, Action.devClose 1]
      (OctScanner.closeAllHandleActions (StageHandles.set emptyHandles Axis.x (some 1))) :=
  ⟨(closeAll_idempotent_shutdown
      ⟨emptyHandles, false, false, false, false, false, [], false⟩).1 rfl,
   ((closeAll_idempotent_shutdown
      ⟨StageHandles.set emptyHandles Axis.x (some 1), true, true, true, true, true, [], true⟩).2.1
      rfl).1,
   (closeAll_idempotent_shutdown
      ⟨StageHandles.set emptyHandles Axis.x (some 1), true, true, true, true, true, [], true⟩).2.2
      Axis.x 1 rfl⟩

/-! ### `yOCTScannerInit` (thorlabs_imager_oct.py) -/

/-- Environment of `yOCTScannerInit`: the filesystem (probe file content as
lines; `none` when `os.path.exists` is false) and whether `OCTSystem()` fails
to connect. -/
structure OctEnv where
  fileLines : String → Option (List String)
  octInitFails : Bool

/-- `yOCTScannerInit`: check the probe file exists first (FileNotFoundError
before any hardware or cleanup action); close the previous scanner when one
is live (initialized flag or `_oct_system` set); connect (`OCTSystem()`,
RuntimeError on failure); read the probe config (a parse error propagates);
create the default probe, push the known config keys onto the probe property
setters, create the processing pipeline, and set the initialized flag. -/
def OctScanner.yOCTScannerInit (env : OctEnv) (s : OctModuleState) (octProbePath : String) :
    OctModuleState × Except PyErr Unit × List Action :=
  match env.fileLines octProbePath with
  | none =>
    (s, Except.error (PyErr.fileNotFoundError
        ("Probe configuration file not found: " ++ octProbePath)), [])
  | some lines =>
    let c := if s.scannerInitialized || s.octSystem then OctScanner.yOCTScannerClose s
             else (s, [])
    if env.octInitFails then
      (c.1, Except.error (PyErr.runtimeError ("Failed to connect to OCT device")),
       c.2 ++ [Action.octSystemCreate])
    else
      let s2 := { c.1 with octSystem := true, deviceObj := true }
      match readProbeIni lines with
      | Except.error e => (s2, Except.error e, c.2 ++ [Action.octSystemCreate])
      | Except.ok cfg =>
        ({ s2 with
            probeObj := true
            processingObj := true
            probeConfig := cfg
            scannerInitialized := true },
         Except.ok (),
         c.2 ++ [Action.octSystemCreate, Action.probeCreate]
           ++ (applyProbeConfig cfg).1.map
                (fun sc => Action.setterCall sc.iniKey sc.setter sc.value)
           ++ [Action.processingCreate])

/-- C8: a missing probe file raises FileNotFoundError with no hardware or
cleanup action; with the file present, the OCT connection up, and the config
parsing cleanly, any live scanner is closed first and the call ends
successfully with the initialized flag set, the parsed config stored, and the
trace in the order close → connect → probe creation → known-key setter calls
→ processing creation. -/
theorem scanner_init_spec :
    ∀ (env : OctEnv) (s : OctModuleState) (path : String),
      (env.fileLines path = none →
        OctScanner.yOCTScannerInit env s path =
          (s, Except.error (PyErr.fileNotFoundError
              ("Probe configuration file not found: " ++ path)), [])) ∧
      (∀ lines cfg,
        env.fileLines path = some lines →
        env.octInitFails = false →
        readProbeIni lines = Except.ok cfg →
        ((OctScanner.yOCTScannerInit env s path).1.scannerInitialized = true ∧
         (OctScanner.yOCTScannerInit env s path).1.probeConfig = cfg ∧
         (OctScanner.yOCTScannerInit env s path).2.1 = Except.ok () ∧
         (OctScanner.yOCTScannerInit env s path).2.2 =
           (if s.scannerInitialized || s.octSystem
            then (OctScanner.yOCTScannerClose s).2 else [])
             ++ [Action.octSystemCreate, Action.probeCreate]
             ++ (applyProbeConfig cfg).1.map
                  (fun sc => Action.setterCall sc.iniKey sc.setter sc.value)
             ++ [Action.processingCreate])) := by
  intro env s path
  constructor
  · intro hno
    simp [OctScanner.yOCTScannerInit, hno]
  · intro lines cfg hl hok hcfg
    rcases hc : (s.scannerInitialized || s.octSystem) with _ | _ <;>
      refine ⟨?_, ?_, ?_, ?_⟩ <;>
        simp [OctScanner.yOCTScannerInit, OctScanner.yOCTScannerClose, hl, hok, hcfg, hc]

/-- C8 witness: the two branches evaluated against a one-file filesystem
holding a two-line probe config. -/
theorem scanner_init_spec_witness :
    (OctScanner.yOCTScannerInit
        (OctEnv.mk (fun p => if p = "probe.ini"
          then some [("Oversampling = 42"), ("# c")] else none) false)
        ⟨emptyHandles, false, false, false, false, false, [], false⟩ ("missing.ini") =
      (⟨emptyHandles, false, false, false, false, false, [], false⟩,
       Except.error (PyErr.fileNotFoundError
          ("Probe configuration file not found: " ++ "missing.ini")), [])) ∧
    ((OctScanner.yOCTScannerInit
        (OctEnv.mk (fun p => if p = "probe.ini"
          then some [("Oversampling = 42"), ("# c")] else none) false)
        ⟨emptyHandles, false, false, false, false, false, [], false⟩
        ("probe.ini")).1.scannerInitialized = true) ∧
    ((OctScanner.yOCTScannerInit
        (OctEnv.mk (fun p => if p = "probe.ini"
          then some [("Oversampling = 42"), ("# c")] else none) false)
        ⟨emptyHandles, false, false, false, false, false, [], false⟩
        ("probe.ini")).1.probeConfig = [(("Oversampling" : String), IniValue.intV 42)]) :=
  ⟨(scanner_init_spec
      (OctEnv.mk (fun p => if p = "probe.ini"
        then some [("Oversampling = 42"), ("# c")] else none) false)
      ⟨emptyHandles, false, false, false, false, false, [], false⟩ ("missing.ini")).1 rfl,
   ((scanner_init_spec
      (OctEnv.mk (fun p => if p = "probe.ini"
        then some [("Oversampling = 42"), ("# c")] else none) false)
      ⟨emptyHandles, false, false, false, false, false, [], false⟩ ("probe.ini")).2
      [("Oversampling = 42"), ("# c")] [(("Oversampling" : String), IniValue.intV 42)]
      rfl rfl (by decide)).1,
   ((scanner_init_spec
      (OctEnv.mk (fun p => if p = "probe.ini"
        then some [("Oversampling = 42"), ("# c")] else none) false)
      ⟨emptyHandles, false, false, false, false, false, [], false⟩ ("probe.ini")).2
      [("Oversampling = 42"), ("# c")] [(("Oversampling" : String), IniValue.intV 42)]
      rfl rfl (by decide)).2.1⟩

/-! ### `_split_spectral_files_by_bscan` (thorlabs_imager_oct.py) -/

/-- File names inside the scan's `data/` folder.  `Spectral{i}.data` is
injective in the index, which the constructor encodes. -/
inductive FileName
  | spectral (i : Nat)
  | spectralTemp
  | other (name : String)
deriving DecidableEq

/-- The `data/` folder: file name ↦ byte content (bytes as Nats). -/
def DataFS := FileName → Option (List Nat)

/-- `open(path, "wb").write(c)` — create or overwrite. -/
def fsSet (fs : DataFS) (n : FileName) (c : List Nat) : DataFS :=
  fun m => if m = n then some c else fs m

/-- `os.remove(path)`. -/
def fsDel (fs : DataFS) (n : FileName) : DataFS :=
  fun m => if m = n then none else fs m

/-- `os.rename(old, new)` on an existing source, destination overwritten. -/
def fsRename (fs : DataFS) (oldN newN : FileName) : DataFS :=
  match fs oldN with
  | none => fs
  | some c => fsSet (fsDel fs oldN) newN c

/-- The file-system steps of the splitter at which an injected exception can
occur. -/
inductive SplitStep
  | renameToTemp
  | readBlob
  | writeFile (i : Nat)
  | removeTemp
deriving DecidableEq

structure SplitEnv where
  failsAt : SplitStep → Bool

/-- The per-B-scan write loop: writes `Spectral{i}.data` for each pair,
stopping (exception) at the first failing write. -/
def writeLoop (env : SplitEnv) (fs : DataFS) : List (Nat × List Nat) → DataFS × Bool
  | [] => (fs, true)
  | (i, c) :: rest =>
    if env.failsAt (SplitStep.writeFile i) then (fs, false)
    else writeLoop env (fsSet fs (FileName.spectral i) c) rest

/-- The `except` arm: restore the concatenated file from the temp copy when
the temp exists. -/
def restoreConcat (fs : DataFS) : DataFS :=
  if (fs FileName.spectralTemp).isSome then
    fsRename fs FileName.spectralTemp (FileName.spectral 0)
  else fs

/-- `concat_data[start_byte:end_byte]` for B-scan `i`. -/
def bscanSlice (blob : List Nat) (bpb i : Nat) : List Nat :=
  (blob.drop (i * bpb)).take bpb

/-- `_split_spectral_files_by_bscan`, the XML header abstracted into its
parsed fields (`SizeZ`/`SizeX` of the Raw DataFile element, the last
`SizePixel/SizeY` overriding `nYPixels`; the header was written by the SDK
moments before, so its parse is modelled as succeeding), with failure
injection at the four file-system steps: return unchanged when header or
concatenated file is missing or a parsed size is falsy; otherwise rename the
concatenated file to a temp name, read it, write `bytes_per_bscan = N div
size_y` sized chunks as `Spectral0 … Spectral(size_y−1)`, and remove the
temp; any step failure runs the restoring `except` arm. -/
def splitSpectralFiles (env : SplitEnv) (headerPresent : Bool)
    (sizeZ sizeX headerSizeY : Option Nat) (nYPixels : Nat) (fs : DataFS) : DataFS :=
  match fs (FileName.spectral 0), headerPresent with
  | some blob, true =>
    let size_y := headerSizeY.getD nYPixels
    if sizeZ.getD 0 = 0 ∨ sizeX.getD 0 = 0 ∨ size_y = 0 then fs
    else if env.failsAt SplitStep.renameToTemp then restoreConcat fs
    else
      let fs1 := fsRename fs (FileName.spectral 0) FileName.spectralTemp
      if env.failsAt SplitStep.readBlob then restoreConcat fs1
      else
        let bpb := blob.length / size_y
        let w := writeLoop env fs1
          ((List.range size_y).map (fun i => (i, bscanSlice blob bpb i)))
        if w.2 then
          (if env.failsAt SplitStep.removeTemp then restoreConcat w.1
           else fsDel w.1 FileName.spectralTemp)
        else restoreConcat w.1
  | _, _ => fs

/-- The write loop leaves every name it does not write untouched. -/
theorem writeLoop_preserve (env : SplitEnv) (pairs : List (Nat × List Nat)) :
    ∀ (fs : DataFS) (m : FileName), (∀ p ∈ pairs, FileName.spectral p.1 ≠ m) →
      (writeLoop env fs pairs).1 m = fs m := by
  induction pairs with
  | nil => intro fs m hne; rfl
  | cons p rest ih =>
    intro fs m hne
    rcases p with ⟨i, c⟩
    by_cases hf : env.failsAt (SplitStep.writeFile i) = true
    · simp [writeLoop, hf]
    · simp only [writeLoop, hf, Bool.false_eq_true, if_false]
      rw [ih _ m (fun q hq => hne q (List.mem_cons_of_mem _ hq))]
      have hmi : m ≠ FileName.spectral i :=
        fun he => hne (i, c) (List.mem_cons_self _ _) he.symm
      simp [fsSet, hmi]

/-- A failure-free write loop reports success. -/
theorem writeLoop_ok (env : SplitEnv) (pairs : List (Nat × List Nat))
    (hok : ∀ p ∈ pairs, env.failsAt (SplitStep.writeFile p.1) = false) :
    ∀ fs : DataFS, (writeLoop env fs pairs).2 = true := by
  induction pairs with
  | nil => intro fs; rfl
  | cons p rest ih =>
    intro fs
    rcases p with ⟨i, c⟩
    have hf := hok (i, c) (List.mem_cons_self _ _)
    simp only [writeLoop, hf, Bool.false_eq_true, if_false]
    exact ih (fun q hq => hok q (List.mem_cons_of_mem _ hq)) _

/-- A failure-free write loop writes each pair's content to its file (the
first-component list being duplicate-free). -/
theorem writeLoop_writes (env : SplitEnv) (pairs : List (Nat × List Nat))
    (hok : ∀ p ∈ pairs, env.failsAt (SplitStep.writeFile p.1) = false)
    (hnd : (pairs.map Prod.fst).Nodup) :
    ∀ (fs : DataFS) (i : Nat) (c : List Nat), (i, c) ∈ pairs →
      (writeLoop env fs pairs).1 (FileName.spectral i) = some c := by
  induction pairs with
  | nil => intro fs i c hm; cases hm
  | cons p rest ih =>
    intro fs i c hm
    rcases p with ⟨j, cj⟩
    have hfj := hok (j, cj) (List.mem_cons_self _ _)
    simp only [writeLoop, hfj, Bool.false_eq_true, if_false]
    rcases List.mem_cons.mp hm with he | hrest
    · cases he
      have hni : ∀ q ∈ rest, FileName.spectral q.1 ≠ FileName.spectral i := by
        intro q hq he2
        have : q.1 = i := by cases he2; rfl
        have hmem : i ∈ rest.map Prod.fst := this ▸ List.mem_map_of_mem Prod.fst hq
        exact (List.nodup_cons.mp hnd).1 hmem
      rw [writeLoop_preserve env rest _ _ hni]
      simp [fsSet]
    · exact ih (fun q hq => hok q (List.mem_cons_of_mem _ hq))
        (List.nodup_cons.mp hnd).2 _ i c hrest

/-- A write loop with a failing member reports failure. -/
theorem writeLoop_fails (env : SplitEnv) (pairs : List (Nat × List Nat)) :
    ∀ fs : DataFS, (∃ p ∈ pairs, env.failsAt (SplitStep.writeFile p.1) = true) →
      (writeLoop env fs pairs).2 = false := by
  induction pairs with
  | nil => intro fs h; rcases h with ⟨p, hp, _⟩; cases hp
  | cons p rest ih =>
    intro fs h
    rcases p with ⟨j, cj⟩
    by_cases hfj : env.failsAt (SplitStep.writeFile j) = true
    · simp [writeLoop, hfj]
    · simp only [writeLoop, Bool.not_eq_true] at hfj
      simp only [writeLoop, hfj, Bool.false_eq_true, if_false]
      rcases h with ⟨q, hq, hqf⟩
      rcases List.mem_cons.mp hq with he | hrest
      · exfalso; cases he; rw [hfj] at hqf; cases hqf
      · exact ih _ ⟨q, hrest, hqf⟩

/-- When the temp copy holds the blob, the restore arm puts it back under the
concatenated name. -/
theorem restoreConcat_spectral0 (fs : DataFS) (blob : List Nat)
    (ht : fs FileName.spectralTemp = some blob) :
    restoreConcat fs (FileName.spectral 0) = some blob := by
  simp [restoreConcat, fsRename, ht, fsSet]

/-- C6: with header and concatenated Spectral0.data present and the parsed
sizes nonzero, a failure-free run of the splitter replaces Spectral0.data by
exactly the files Spectral0 … Spectral(size_y−1), file i holding the byte
range [i·(N div size_y), (i+1)·(N div size_y)) of the blob, with the temp
file gone and every other name untouched; and when any splitting step fails,
the original concatenated blob is found as Spectral0.data afterwards,
restored from the temp file when one had been created. -/
theorem split_spectral_bscan_spec :
    ∀ (env : SplitEnv) (fs : DataFS) (blob : List Nat) (sz sx sy nY : Nat),
      fs (FileName.spectral 0) = some blob →
      fs FileName.spectralTemp = none →
      sz ≠ 0 → sx ≠ 0 → sy ≠ 0 →
      ((∀ st, env.failsAt st = false) →
        (∀ i, i < sy →
          splitSpectralFiles env true (some sz) (some sx) (some sy) nY fs
            (FileName.spectral i) = some (bscanSlice blob (blob.length / sy) i)) ∧
        splitSpectralFiles env true (some sz) (some sx) (some sy) nY fs
          FileName.spectralTemp = none ∧
        (∀ i, sy ≤ i →
          splitSpectralFiles env true (some sz) (some sx) (some sy) nY fs
            (FileName.spectral i) = fs (FileName.spectral i)) ∧
        (∀ nm, splitSpectralFiles env true (some sz) (some sx) (some sy) nY fs
          (FileName.other nm) = fs (FileName.other nm))) ∧
      ((env.failsAt SplitStep.renameToTemp = true ∨
        env.failsAt SplitStep.readBlob = true ∨
        (∃ i, i < sy ∧ env.failsAt (SplitStep.writeFile i) = true) ∨
        env.failsAt SplitStep.removeTemp = true) →
        splitSpectralFiles env true (some sz) (some sx) (some sy) nY fs
          (FileName.spectral 0) = some blob) := by
  intro env fs blob sz sx sy nY hblob htemp hsz hsx hsy
  have hguard : ¬ (sz = 0 ∨ sx = 0 ∨ sy = 0) := by
    intro h
    rcases h with h | h | h
    · exact hsz h
    · exact hsx h
    · exact hsy h
  have hfs1temp : fsRename fs (FileName.spectral 0) FileName.spectralTemp
      FileName.spectralTemp = some blob := by
    simp [fsRename, hblob, fsSet]
  have hpairs_ne_temp : ∀ bpb : Nat,
      ∀ p ∈ (List.range sy).map (fun i => (i, bscanSlice blob bpb i)),
        FileName.spectral p.1 ≠ FileName.spectralTemp := by
    intro bpb p hp he
    cases he
  constructor
  · intro hall
    have hok : ∀ p ∈ (List.range sy).map
        (fun i => (i, bscanSlice blob (blob.length / sy) i)),
        env.failsAt (SplitStep.writeFile p.1) = false := fun p _ => hall _
    have hnd : (((List.range sy).map
        (fun i => (i, bscanSlice blob (blob.length / sy) i))).map Prod.fst).Nodup := by
      simpa [List.map_map, Function.comp_def, List.map_id] using List.nodup_range sy
    have hsplit : splitSpectralFiles env true (some sz) (some sx) (some sy) nY fs =
        fsDel (writeLoop env (fsRename fs (FileName.spectral 0) FileName.spectralTemp)
          ((List.range sy).map (fun i => (i, bscanSlice blob (blob.length / sy) i)))).1
          FileName.spectralTemp := by
      simp only [splitSpectralFiles, hblob, Option.getD_some, if_neg hguard,
        hall SplitStep.renameToTemp, Bool.false_eq_true, if_false,
        hall SplitStep.readBlob,
        writeLoop_ok env _ hok, if_true,
        hall SplitStep.removeTemp]
    rw [hsplit]
    refine ⟨?_, ?_, ?_, ?_⟩
    · intro i hi
      have hmem : ((i, bscanSlice blob (blob.length / sy) i)) ∈
          (List.range sy).map (fun j => (j, bscanSlice blob (blob.length / sy) j)) :=
        List.mem_map.mpr ⟨i, List.mem_range.mpr hi, rfl⟩
      have hw := writeLoop_writes env _ hok hnd
        (fsRename fs (FileName.spectral 0) FileName.spectralTemp) i
        (bscanSlice blob (blob.length / sy) i) hmem
      simpa [fsDel] using hw
    · simp [fsDel]
    · intro i hi
      have hwp := writeLoop_preserve env
        ((List.range sy).map (fun j => (j, bscanSlice blob (blob.length / sy) j)))
        (fsRename fs (FileName.spectral 0) FileName.spectralTemp) (FileName.spectral i)
        (by
          intro p hp he
          rcases List.mem_map.mp hp with ⟨j, hj, rfl⟩
          rw [FileName.spectral.injEq] at he
          subst he
          exact absurd (List.mem_range.mp hj) (Nat.not_lt.mpr hi))
      have hi0 : i ≠ 0 := by omega
      simp only [fsDel]
      rw [if_neg (by simp)]
      rw [hwp]
      simp [fsRename, hblob, fsSet, fsDel, hi0]
    · intro nm
      have hwp := writeLoop_preserve env
        ((List.range sy).map (fun j => (j, bscanSlice blob (blob.length / sy) j)))
        (fsRename fs (FileName.spectral 0) FileName.spectralTemp) (FileName.other nm)
        (by intro p hp he; cases he)
      simp only [fsDel]
      rw [if_neg (by simp)]
      rw [hwp]
      simp [fsRename, hblob, fsSet, fsDel]
  · intro hfail
    by_cases hrn : env.failsAt SplitStep.renameToTemp = true
    · simp only [splitSpectralFiles, hblob, Option.getD_some, if_neg hguard, hrn, if_true]
      simp [restoreConcat, htemp, hblob]
    · simp only [Bool.not_eq_true] at hrn
      by_cases hrd : env.failsAt SplitStep.readBlob = true
      · simp only [splitSpectralFiles, hblob, Option.getD_some, if_neg hguard, hrn,
          Bool.false_eq_true, if_false, hrd, if_true]
        exact restoreConcat_spectral0 _ blob hfs1temp
      · simp only [Bool.not_eq_true] at hrd
        have hwtemp : (writeLoop env (fsRename fs (FileName.spectral 0) FileName.spectralTemp)
            ((List.range sy).map (fun i => (i, bscanSlice blob (blob.length / sy) i)))).1
            FileName.spectralTemp = some blob := by
          rw [writeLoop_preserve env _ _ _ (hpairs_ne_temp _)]
          exact hfs1temp
        by_cases hw2 : (writeLoop env (fsRename fs (FileName.spectral 0) FileName.spectralTemp)
            ((List.range sy).map (fun i => (i, bscanSlice blob (blob.length / sy) i)))).2 = true
        · by_cases hrm : env.failsAt SplitStep.removeTemp = true
          · simp only [splitSpectralFiles, hblob, Option.getD_some, if_neg hguard, hrn,
              Bool.false_eq_true, if_false, hrd, hw2, if_true, hrm]
            exact restoreConcat_spectral0 _ blob hwtemp
          · exfalso
            simp only [Bool.not_eq_true] at hrm
            rcases hfail with h | h | h | h
            · rw [hrn] at h; cases h
            · rw [hrd] at h; cases h
            · rcases h with ⟨i, hi, hif⟩
              have := writeLoop_fails env
                ((List.range sy).map (fun j => (j, bscanSlice blob (blob.length / sy) j)))
                (fsRename fs (FileName.spectral 0) FileName.spectralTemp)
                ⟨(i, bscanSlice blob (blob.length / sy) i),
                 List.mem_map.mpr ⟨i, List.mem_range.mpr hi, rfl⟩, hif⟩
              rw [hw2] at this; cases this
            · rw [hrm] at h; cases h
        · simp only [Bool.not_eq_true] at hw2
          simp only [splitSpectralFiles, hblob, Option.getD_some, if_neg hguard, hrn,
            Bool.false_eq_true, if_false, hrd, hw2]
          exact restoreConcat_spectral0 _ blob hwtemp

/-- A splitter environment where every file-system step succeeds. -/
def splitEnvOk : SplitEnv := ⟨fun _ => false⟩

/-- A splitter environment where writing `Spectral1.data` raises. -/
def splitEnvFailWrite : SplitEnv := ⟨fun st => st == SplitStep.writeFile 1⟩

/-- A `data/` folder holding only the concatenated 4-byte Spectral0.data. -/
def demoDataFS : DataFS :=
  fun n => if n = FileName.spectral 0 then some [10, 11, 12, 13] else none

/-- C6 witness: on a 4-byte blob with size_y = 2, the clean run gives
Spectral1.data the second 2-byte half and leaves no temp file, and a run
whose second write raises restores the concatenated Spectral0.data. -/
theorem split_spectral_bscan_spec_witness :
    splitSpectralFiles splitEnvOk true (some 5) (some 3) (some 2) 7 demoDataFS
      (FileName.spectral 1) =
      some (bscanSlice [10, 11, 12, 13] ((([10, 11, 12, 13] : List Nat).length) / 2) 1) ∧
    splitSpectralFiles splitEnvOk true (some 5) (some 3) (some 2) 7 demoDataFS
      FileName.spectralTemp = none ∧
    splitSpectralFiles splitEnvFailWrite true (some 5) (some 3) (some 2) 7 demoDataFS
      (FileName.spectral 0) = some [10, 11, 12, 13] := by
  refine ⟨?_, ?_, ?_⟩
  · exact ((split_spectral_bscan_spec splitEnvOk demoDataFS [10, 11, 12, 13] 5 3 2 7
      rfl rfl (by decide) (by decide) (by decide)).1 (fun st => rfl)).1 1 (by decide)
  · exact ((split_spectral_bscan_spec splitEnvOk demoDataFS [10, 11, 12, 13] 5 3 2 7
      rfl rfl (by decide) (by decide) (by decide)).1 (fun st => rfl)).2.1
  · exact (split_spectral_bscan_spec splitEnvFailWrite demoDataFS [10, 11, 12, 13] 5 3 2 7
      rfl rfl (by decide) (by decide) (by decide)).2
      (Or.inr (Or.inr (Or.inl ⟨1, by decide, by decide⟩)))

/-! ### `yOCTScan3DVolume` (thorlabs_imager_oct.py) -/

/-- The steps of the scan body that can raise out of its `try` (the trailing
helpers `_split_spectral_files_by_bscan` and `_fix_header_xml_for_matlab`
swallow their own exceptions), in source order.  `acquisition_started` is
true from a successful `acquisition.start` until a successful
`acquisition.stop`. -/
inductive ScanStep
  | setAvg
  | createPattern
  | acqStartStep
  | getRawData
  | acqStopStep
  | buildSaveOct
  | extractZip
deriving DecidableEq

def scanStepIndex : ScanStep → Nat
  | .setAvg => 0
  | .createPattern => 1
  | .acqStartStep => 2
  | .getRawData => 3
  | .acqStopStep => 4
  | .buildSaveOct => 5
  | .extractZip => 6

def scanStepsOrder : List ScanStep :=
  [ScanStep.setAvg, ScanStep.createPattern, ScanStep.acqStartStep, ScanStep.getRawData,
   ScanStep.acqStopStep, ScanStep.buildSaveOct, ScanStep.extractZip]

structure ScanEnv where
  failsAt : ScanStep → Bool

/-- The first step of the body at which the injected exception occurs. -/
def firstFailingStep (env : ScanEnv) : Option ScanStep :=
  scanStepsOrder.find? (fun st => env.failsAt st)

/-- The scan-output filesystem: which directories exist. -/
structure ScanFS where
  folders : List String
deriving DecidableEq

/-- `yOCTScan3DVolume`: RuntimeError when the scanner is not initialized and
FileExistsError when the output folder already exists, both before creating
anything; otherwise create the folder and run the body; on the first failing
step, stop the acquisition when it was started, delete the created output
folder, and re-raise.  (`shutil.rmtree` is modelled as succeeding; the trace
shows `acqStart` once `acquisition.start` ran and `acqStop` for the normal
stop and/or the cleanup stop.) -/
def yOCTScan3DVolume (env : ScanEnv) (scannerInitialized : Bool) (fs : ScanFS)
    (outputFolder : String) : ScanFS × Except PyErr Unit × List Action :=
  if ¬ scannerInitialized then
    (fs, Except.error (PyErr.runtimeError
        ("Scanner not initialized. Call yOCTScannerInit() first.")), [])
  else if fs.folders.contains outputFolder then
    (fs, Except.error (PyErr.fileExistsError
        ("Output folder already exists: " ++ outputFolder)), [])
  else
    match firstFailingStep env with
    | none =>
      (⟨outputFolder :: fs.folders⟩, Except.ok (), [Action.acqStart, Action.acqStop])
    | some st =>
      (fs,
       Except.error (PyErr.runtimeError ("scan step failed")),
       (if 3 ≤ scanStepIndex st then [Action.acqStart] else []) ++
       (if 5 ≤ scanStepIndex st then [Action.acqStop] else []) ++
       (if 3 ≤ scanStepIndex st ∧ scanStepIndex st ≤ 4 then [Action.acqStop] else []))

/-- C9: the not-initialized and folder-exists errors come before anything is
created; every error outcome leaves the filesystem exactly as before the call
(the created output folder is removed on body failure); every path that
started the acquisition also stops it; the output folder exists afterwards
exactly on the success path. -/
theorem scan3d_error_cleanup :
    ∀ (env : ScanEnv) (init : Bool) (fs : ScanFS) (out : String),
      (init = false →
        yOCTScan3DVolume env init fs out =
          (fs, Except.error (PyErr.runtimeError
              ("Scanner not initialized. Call yOCTScannerInit() first.")), [])) ∧
      (init = true → fs.folders.contains out = true →
        yOCTScan3DVolume env init fs out =
          (fs, Except.error (PyErr.fileExistsError
              ("Output folder already exists: " ++ out)), [])) ∧
      (∀ e, (yOCTScan3DVolume env init fs out).2.1 = Except.error e →
        (yOCTScan3DVolume env init fs out).1 = fs) ∧
      (Action.acqStart ∈ (yOCTScan3DVolume env init fs out).2.2 →
        Action.acqStop ∈ (yOCTScan3DVolume env init fs out).2.2) ∧
      (init = true → fs.folders.contains out = false → firstFailingStep env = none →
        (yOCTScan3DVolume env init fs out).1.folders = out :: fs.folders) := by
  intro env init fs out
  refine ⟨fun hni => ?_, fun hi hex => ?_, ?_, ?_, fun hi hnex hff => ?_⟩
  · simp [yOCTScan3DVolume, hni]
  · simp [yOCTScan3DVolume, hi, mem_of_contains hex]
  · intro e he
    rcases hinit : init with _ | _
    · simp [yOCTScan3DVolume, hinit]
    · by_cases hex : fs.folders.contains out = true
      · simp [yOCTScan3DVolume, hinit, mem_of_contains hex]
      · simp only [Bool.not_eq_true] at hex
        have hnm := not_mem_of_contains_eq_false hex
        rcases hff : firstFailingStep env with _ | st
        · simp only [yOCTScan3DVolume, hinit, hex, hff, Bool.true_eq_false,
            not_true_eq_false, if_false, Bool.false_eq_true] at he
          cases he
        · simp [yOCTScan3DVolume, hinit, hnm, hff]
  · intro hstart
    rcases hinit : init with _ | _
    · simp [yOCTScan3DVolume, hinit] at hstart
    · by_cases hex : fs.folders.contains out = true
      · simp [yOCTScan3DVolume, hinit, mem_of_contains hex] at hstart
      · simp only [Bool.not_eq_true] at hex
        have hnm := not_mem_of_contains_eq_false hex
        rcases hff : firstFailingStep env with _ | st
        · simp [yOCTScan3DVolume, hinit, hnm, hff]
        · simp only [yOCTScan3DVolume, hinit, hex, hff, Bool.true_eq_false,
            not_true_eq_false, if_false, Bool.false_eq_true] at hstart ⊢
          cases st <;> revert hstart <;> decide
  · simp [yOCTScan3DVolume, hi, not_mem_of_contains_eq_false hnex, hff]

/-- C9 witness: the three error paths and the success path evaluated at
concrete states (env failing at `getRawData` for the cleanup conjunct). -/
theorem scan3d_error_cleanup_witness :
    (yOCTScan3DVolume ⟨fun _ => false⟩ false ⟨[]⟩ ("scan1") =
      (⟨[]⟩, Except.error (PyErr.runtimeError
          ("Scanner not initialized. Call yOCTScannerInit() first.")), [])) ∧
    (yOCTScan3DVolume ⟨fun _ => false⟩ true ⟨[("scan1")]⟩ ("scan1") =
      (⟨[("scan1")]⟩, Except.error (PyErr.fileExistsError
          ("Output folder already exists: " ++ "scan1")), [])) ∧
    ((yOCTScan3DVolume ⟨fun st => st == ScanStep.getRawData⟩ true ⟨[]⟩ ("scan1")).1 =
      (⟨[]⟩ : ScanFS)) ∧
    (Action.acqStop ∈
      (yOCTScan3DVolume ⟨fun st => st == ScanStep.getRawData⟩ true ⟨[]⟩ ("scan1")).2.2) ∧
    ((yOCTScan3DVolume ⟨fun _ => false⟩ true ⟨[]⟩ ("scan1")).1.folders =
      ("scan1") :: ([] : List String)) :=
  ⟨(scan3d_error_cleanup ⟨fun _ => false⟩ false ⟨[]⟩ ("scan1")).1 rfl,
   (scan3d_error_cleanup ⟨fun _ => false⟩ true ⟨[("scan1")]⟩ ("scan1")).2.1 rfl (by decide),
   (scan3d_error_cleanup ⟨fun st => st == ScanStep.getRawData⟩ true ⟨[]⟩ ("scan1")).2.2.1
     (PyErr.runtimeError ("scan step failed")) (by decide),
   (scan3d_error_cleanup ⟨fun st => st == ScanStep.getRawData⟩ true ⟨[]⟩ ("scan1")).2.2.2.1
     (by decide),
   (scan3d_error_cleanup ⟨fun _ => false⟩ true ⟨[]⟩ ("scan1")).2.2.2.2 rfl (by decide) rfl⟩

end MyOCT
